/-
Verification of the coldbrew JVM runtime core (class-file decoder, opcode
table, interpreter fetch/eval, trace recorder) against its design
specification. Every definition below is a shallow embedding of the
corresponding Rust item; machine integers are modelled as `Nat`/`Int`
(with explicit wrapping only where the Rust cast can wrap), byte streams
as `List Nat` consumed front-to-back, and panicking code paths as
`Option`/`none`.
-/
import Mathlib

set_option maxRecDepth 4000
set_option maxHeartbeats 1600000

namespace Coldbrew

/-- The opcode tag set from `bytecode.rs`: one variant per byte value
0..=202 in declaration order, plus the `Unspecified` proxy for unknown
byte values. -/
inductive OPCode where
  | Nop
  | AConstNull
  | IconstM1
  | Iconst0
  | Iconst1
  | Iconst2
  | Iconst3
  | Iconst4
  | Iconst5
  | Lconst0
  | Lconst1
  | Fconst0
  | Fconst1
  | Fconst2
  | Dconst0
  | Dconst1
  | BiPush
  | SiPush
  | Ldc
  | LdcW
  | Ldc2W
  | ILoad
  | LLoad
  | FLoad
  | DLoad
  | ALoad
  | ILoad0
  | ILoad1
  | ILoad2
  | ILoad3
  | LLoad0
  | LLoad1
  | LLoad2
  | LLoad3
  | FLoad0
  | FLoad1
  | FLoad2
  | FLoad3
  | DLoad0
  | DLoad1
  | DLoad2
  | DLoad3
  | ALoad0
  | ALoad1
  | ALoad2
  | ALoad3
  | IALoad
  | LALoad
  | FALoad
  | DALoad
  | AALoad
  | BALoad
  | CALoad
  | SALoad
  | IStore
  | LStore
  | FStore
  | DStore
  | AStore
  | IStore0
  | IStore1
  | IStore2
  | IStore3
  | LStore0
  | LStore1
  | LStore2
  | LStore3
  | FStore0
  | FStore1
  | FStore2
  | FStore3
  | DStore0
  | DStore1
  | DStore2
  | DStore3
  | AStore0
  | AStore1
  | AStore2
  | AStore3
  | IAStore
  | LAStore
  | FAStore
  | DAStore
  | AAStore
  | BAStore
  | CAStore
  | SAStore
  | Pop
  | Pop2
  | Dup
  | DupX1
  | DupX2
  | Dup2
  | Dup2X1
  | Dup2X2
  | Swap
  | IAdd
  | LAdd
  | FAdd
  | DAdd
  | ISub
  | LSub
  | FSub
  | DSub
  | IMul
  | LMul
  | FMul
  | DMul
  | IDiv
  | LDiv
  | FDiv
  | DDiv
  | IRem
  | LRem
  | FRem
  | DRem
  | INeg
  | LNeg
  | FNeg
  | DNeg
  | IShl
  | LShl
  | IShr
  | LShr
  | IUShr
  | LUShr
  | Iand
  | Land
  | IOr
  | LOr
  | IXor
  | LXor
  | IInc
  | I2L
  | I2F
  | I2D
  | L2I
  | L2F
  | L2D
  | F2I
  | F2L
  | F2D
  | D2I
  | D2L
  | D2F
  | I2B
  | I2C
  | I2S
  | LCmp
  | FCmpL
  | FCmpG
  | DCmpL
  | DCmpG
  | IfEq
  | IfNe
  | IfLt
  | IfGe
  | IfGt
  | IfLe
  | IfICmpEq
  | IfICmpNe
  | IfICmpLt
  | IfICmpGe
  | IfICmpGt
  | IfICmpLe
  | IfACmpEq
  | IfACmpNe
  | Goto
  | Jsr
  | Ret
  | TableSwitch
  | LookupSwitch
  | IReturn
  | LReturn
  | FReturn
  | DReturn
  | AReturn
  | Return
  | GetStatic
  | PutStatic
  | GetField
  | PutField
  | InvokeVirtual
  | InvokeSpecial
  | InvokeStatic
  | InvokeInterface
  | InvokeDynamic
  | New
  | NewArray
  | ANewArray
  | ArrayLength
  | AThrow
  | CheckCast
  | InstanceOf
  | MonitorEnter
  | MonitorExit
  | Wide
  | MultiANewArray
  | IfNull
  | IfNonNull
  | GotoW
  | JsrW
  | Breakpoint
  | Unspecified
deriving DecidableEq

/-- Embedding of `impl From<u8> for OPCode` in `bytecode.rs`: bytes 0..=202 map to the
canonical tag, everything above (203..=255) maps to `Unspecified`. The
byte is modelled as a `Nat`; callers only ever pass values below 256. The
Rust `match` on byte literals is rendered as an equality-test chain,
which is semantically identical and far cheaper to evaluate than a
literal-pattern match tree. -/
def OPCode.fromByte (b : Nat) : OPCode :=
  if b = 0 then .Nop else
  if b = 1 then .AConstNull else
  if b = 2 then .IconstM1 else
  if b = 3 then .Iconst0 else
  if b = 4 then .Iconst1 else
  if b = 5 then .Iconst2 else
  if b = 6 then .Iconst3 else
  if b = 7 then .Iconst4 else
  if b = 8 then .Iconst5 else
  if b = 9 then .Lconst0 else
  if b = 10 then .Lconst1 else
  if b = 11 then .Fconst0 else
  if b = 12 then .Fconst1 else
  if b = 13 then .Fconst2 else
  if b = 14 then .Dconst0 else
  if b = 15 then .Dconst1 else
  if b = 16 then .BiPush else
  if b = 17 then .SiPush else
  if b = 18 then .Ldc else
  if b = 19 then .LdcW else
  if b = 20 then .Ldc2W else
  if b = 21 then .ILoad else
  if b = 22 then .LLoad else
  if b = 23 then .FLoad else
  if b = 24 then .DLoad else
  if b = 25 then .ALoad else
  if b = 26 then .ILoad0 else
  if b = 27 then .ILoad1 else
  if b = 28 then .ILoad2 else
  if b = 29 then .ILoad3 else
  if b = 30 then .LLoad0 else
  if b = 31 then .LLoad1 else
  if b = 32 then .LLoad2 else
  if b = 33 then .LLoad3 else
  if b = 34 then .FLoad0 else
  if b = 35 then .FLoad1 else
  if b = 36 then .FLoad2 else
  if b = 37 then .FLoad3 else
  if b = 38 then .DLoad0 else
  if b = 39 then .DLoad1 else
  if b = 40 then .DLoad2 else
  if b = 41 then .DLoad3 else
  if b = 42 then .ALoad0 else
  if b = 43 then .ALoad1 else
  if b = 44 then .ALoad2 else
  if b = 45 then .ALoad3 else
  if b = 46 then .IALoad else
  if b = 47 then .LALoad else
  if b = 48 then .FALoad else
  if b = 49 then .DALoad else
  if b = 50 then .AALoad else
  if b = 51 then .BALoad else
  if b = 52 then .CALoad else
  if b = 53 then .SALoad else
  if b = 54 then .IStore else
  if b = 55 then .LStore else
  if b = 56 then .FStore else
  if b = 57 then .DStore else
  if b = 58 then .AStore else
  if b = 59 then .IStore0 else
  if b = 60 then .IStore1 else
  if b = 61 then .IStore2 else
  if b = 62 then .IStore3 else
  if b = 63 then .LStore0 else
  if b = 64 then .LStore1 else
  if b = 65 then .LStore2 else
  if b = 66 then .LStore3 else
  if b = 67 then .FStore0 else
  if b = 68 then .FStore1 else
  if b = 69 then .FStore2 else
  if b = 70 then .FStore3 else
  if b = 71 then .DStore0 else
  if b = 72 then .DStore1 else
  if b = 73 then .DStore2 else
  if b = 74 then .DStore3 else
  if b = 75 then .AStore0 else
  if b = 76 then .AStore1 else
  if b = 77 then .AStore2 else
  if b = 78 then .AStore3 else
  if b = 79 then .IAStore else
  if b = 80 then .LAStore else
  if b = 81 then .FAStore else
  if b = 82 then .DAStore else
  if b = 83 then .AAStore else
  if b = 84 then .BAStore else
  if b = 85 then .CAStore else
  if b = 86 then .SAStore else
  if b = 87 then .Pop else
  if b = 88 then .Pop2 else
  if b = 89 then .Dup else
  if b = 90 then .DupX1 else
  if b = 91 then .DupX2 else
  if b = 92 then .Dup2 else
  if b = 93 then .Dup2X1 else
  if b = 94 then .Dup2X2 else
  if b = 95 then .Swap else
  if b = 96 then .IAdd else
  if b = 97 then .LAdd else
  if b = 98 then .FAdd else
  if b = 99 then .DAdd else
  if b = 100 then .ISub else
  if b = 101 then .LSub else
  if b = 102 then .FSub else
  if b = 103 then .DSub else
  if b = 104 then .IMul else
  if b = 105 then .LMul else
  if b = 106 then .FMul else
  if b = 107 then .DMul else
  if b = 108 then .IDiv else
  if b = 109 then .LDiv else
  if b = 110 then .FDiv else
  if b = 111 then .DDiv else
  if b = 112 then .IRem else
  if b = 113 then .LRem else
  if b = 114 then .FRem else
  if b = 115 then .DRem else
  if b = 116 then .INeg else
  if b = 117 then .LNeg else
  if b = 118 then .FNeg else
  if b = 119 then .DNeg else
  if b = 120 then .IShl else
  if b = 121 then .LShl else
  if b = 122 then .IShr else
  if b = 123 then .LShr else
  if b = 124 then .IUShr else
  if b = 125 then .LUShr else
  if b = 126 then .Iand else
  if b = 127 then .Land else
  if b = 128 then .IOr else
  if b = 129 then .LOr else
  if b = 130 then .IXor else
  if b = 131 then .LXor else
  if b = 132 then .IInc else
  if b = 133 then .I2L else
  if b = 134 then .I2F else
  if b = 135 then .I2D else
  if b = 136 then .L2I else
  if b = 137 then .L2F else
  if b = 138 then .L2D else
  if b = 139 then .F2I else
  if b = 140 then .F2L else
  if b = 141 then .F2D else
  if b = 142 then .D2I else
  if b = 143 then .D2L else
  if b = 144 then .D2F else
  if b = 145 then .I2B else
  if b = 146 then .I2C else
  if b = 147 then .I2S else
  if b = 148 then .LCmp else
  if b = 149 then .FCmpL else
  if b = 150 then .FCmpG else
  if b = 151 then .DCmpL else
  if b = 152 then .DCmpG else
  if b = 153 then .IfEq else
  if b = 154 then .IfNe else
  if b = 155 then .IfLt else
  if b = 156 then .IfGe else
  if b = 157 then .IfGt else
  if b = 158 then .IfLe else
  if b = 159 then .IfICmpEq else
  if b = 160 then .IfICmpNe else
  if b = 161 then .IfICmpLt else
  if b = 162 then .IfICmpGe else
  if b = 163 then .IfICmpGt else
  if b = 164 then .IfICmpLe else
  if b = 165 then .IfACmpEq else
  if b = 166 then .IfACmpNe else
  if b = 167 then .Goto else
  if b = 168 then .Jsr else
  if b = 169 then .Ret else
  if b = 170 then .TableSwitch else
  if b = 171 then .LookupSwitch else
  if b = 172 then .IReturn else
  if b = 173 then .LReturn else
  if b = 174 then .FReturn else
  if b = 175 then .DReturn else
  if b = 176 then .AReturn else
  if b = 177 then .Return else
  if b = 178 then .GetStatic else
  if b = 179 then .PutStatic else
  if b = 180 then .GetField else
  if b = 181 then .PutField else
  if b = 182 then .InvokeVirtual else
  if b = 183 then .InvokeSpecial else
  if b = 184 then .InvokeStatic else
  if b = 185 then .InvokeInterface else
  if b = 186 then .InvokeDynamic else
  if b = 187 then .New else
  if b = 188 then .NewArray else
  if b = 189 then .ANewArray else
  if b = 190 then .ArrayLength else
  if b = 191 then .AThrow else
  if b = 192 then .CheckCast else
  if b = 193 then .InstanceOf else
  if b = 194 then .MonitorEnter else
  if b = 195 then .MonitorExit else
  if b = 196 then .Wide else
  if b = 197 then .MultiANewArray else
  if b = 198 then .IfNull else
  if b = 199 then .IfNonNull else
  if b = 200 then .GotoW else
  if b = 201 then .JsrW else
  if b = 202 then .Breakpoint else
  .Unspecified

/-- The discriminant of an `OPCode` variant (Rust `opcode as u8`): the
declaration index of the variant in the `bytecode.rs` enum. This is the
byte-direction of the bidirectional opcode mapping. -/
def OPCode.toByte : OPCode → Nat
  | .Nop => 0
  | .AConstNull => 1
  | .IconstM1 => 2
  | .Iconst0 => 3
  | .Iconst1 => 4
  | .Iconst2 => 5
  | .Iconst3 => 6
  | .Iconst4 => 7
  | .Iconst5 => 8
  | .Lconst0 => 9
  | .Lconst1 => 10
  | .Fconst0 => 11
  | .Fconst1 => 12
  | .Fconst2 => 13
  | .Dconst0 => 14
  | .Dconst1 => 15
  | .BiPush => 16
  | .SiPush => 17
  | .Ldc => 18
  | .LdcW => 19
  | .Ldc2W => 20
  | .ILoad => 21
  | .LLoad => 22
  | .FLoad => 23
  | .DLoad => 24
  | .ALoad => 25
  | .ILoad0 => 26
  | .ILoad1 => 27
  | .ILoad2 => 28
  | .ILoad3 => 29
  | .LLoad0 => 30
  | .LLoad1 => 31
  | .LLoad2 => 32
  | .LLoad3 => 33
  | .FLoad0 => 34
  | .FLoad1 => 35
  | .FLoad2 => 36
  | .FLoad3 => 37
  | .DLoad0 => 38
  | .DLoad1 => 39
  | .DLoad2 => 40
  | .DLoad3 => 41
  | .ALoad0 => 42
  | .ALoad1 => 43
  | .ALoad2 => 44
  | .ALoad3 => 45
  | .IALoad => 46
  | .LALoad => 47
  | .FALoad => 48
  | .DALoad => 49
  | .AALoad => 50
  | .BALoad => 51
  | .CALoad => 52
  | .SALoad => 53
  | .IStore => 54
  | .LStore => 55
  | .FStore => 56
  | .DStore => 57
  | .AStore => 58
  | .IStore0 => 59
  | .IStore1 => 60
  | .IStore2 => 61
  | .IStore3 => 62
  | .LStore0 => 63
  | .LStore1 => 64
  | .LStore2 => 65
  | .LStore3 => 66
  | .FStore0 => 67
  | .FStore1 => 68
  | .FStore2 => 69
  | .FStore3 => 70
  | .DStore0 => 71
  | .DStore1 => 72
  | .DStore2 => 73
  | .DStore3 => 74
  | .AStore0 => 75
  | .AStore1 => 76
  | .AStore2 => 77
  | .AStore3 => 78
  | .IAStore => 79
  | .LAStore => 80
  | .FAStore => 81
  | .DAStore => 82
  | .AAStore => 83
  | .BAStore => 84
  | .CAStore => 85
  | .SAStore => 86
  | .Pop => 87
  | .Pop2 => 88
  | .Dup => 89
  | .DupX1 => 90
  | .DupX2 => 91
  | .Dup2 => 92
  | .Dup2X1 => 93
  | .Dup2X2 => 94
  | .Swap => 95
  | .IAdd => 96
  | .LAdd => 97
  | .FAdd => 98
  | .DAdd => 99
  | .ISub => 100
  | .LSub => 101
  | .FSub => 102
  | .DSub => 103
  | .IMul => 104
  | .LMul => 105
  | .FMul => 106
  | .DMul => 107
  | .IDiv => 108
  | .LDiv => 109
  | .FDiv => 110
  | .DDiv => 111
  | .IRem => 112
  | .LRem => 113
  | .FRem => 114
  | .DRem => 115
  | .INeg => 116
  | .LNeg => 117
  | .FNeg => 118
  | .DNeg => 119
  | .IShl => 120
  | .LShl => 121
  | .IShr => 122
  | .LShr => 123
  | .IUShr => 124
  | .LUShr => 125
  | .Iand => 126
  | .Land => 127
  | .IOr => 128
  | .LOr => 129
  | .IXor => 130
  | .LXor => 131
  | .IInc => 132
  | .I2L => 133
  | .I2F => 134
  | .I2D => 135
  | .L2I => 136
  | .L2F => 137
  | .L2D => 138
  | .F2I => 139
  | .F2L => 140
  | .F2D => 141
  | .D2I => 142
  | .D2L => 143
  | .D2F => 144
  | .I2B => 145
  | .I2C => 146
  | .I2S => 147
  | .LCmp => 148
  | .FCmpL => 149
  | .FCmpG => 150
  | .DCmpL => 151
  | .DCmpG => 152
  | .IfEq => 153
  | .IfNe => 154
  | .IfLt => 155
  | .IfGe => 156
  | .IfGt => 157
  | .IfLe => 158
  | .IfICmpEq => 159
  | .IfICmpNe => 160
  | .IfICmpLt => 161
  | .IfICmpGe => 162
  | .IfICmpGt => 163
  | .IfICmpLe => 164
  | .IfACmpEq => 165
  | .IfACmpNe => 166
  | .Goto => 167
  | .Jsr => 168
  | .Ret => 169
  | .TableSwitch => 170
  | .LookupSwitch => 171
  | .IReturn => 172
  | .LReturn => 173
  | .FReturn => 174
  | .DReturn => 175
  | .AReturn => 176
  | .Return => 177
  | .GetStatic => 178
  | .PutStatic => 179
  | .GetField => 180
  | .PutField => 181
  | .InvokeVirtual => 182
  | .InvokeSpecial => 183
  | .InvokeStatic => 184
  | .InvokeInterface => 185
  | .InvokeDynamic => 186
  | .New => 187
  | .NewArray => 188
  | .ANewArray => 189
  | .ArrayLength => 190
  | .AThrow => 191
  | .CheckCast => 192
  | .InstanceOf => 193
  | .MonitorEnter => 194
  | .MonitorExit => 195
  | .Wide => 196
  | .MultiANewArray => 197
  | .IfNull => 198
  | .IfNonNull => 199
  | .GotoW => 200
  | .JsrW => 201
  | .Breakpoint => 202
  | .Unspecified => 203

/-- JVM value types (`runtime.rs` `Value`, re-exported to `trace.rs`):
`Int(i32)`, `Long(i64)`, `Float(f32)`, `Double(f64)`. Integers are
modelled as unbounded `Int` (all values handled here stay in range);
the float literals that occur in this code (0.0, 1.0, 2.0) are exactly
representable, so floats are modelled as rationals. -/
inductive Value where
  | Int (v : Int)
  | Long (v : Int)
  | Float (v : Rat)
  | Double (v : Rat)
deriving DecidableEq

/-- A decoded instruction (`runtime.rs` `Instruction`): an opcode plus an
optional ordered parameter list. -/
structure Instruction where
  mnemonic : OPCode
  params : Option (List Value)
deriving DecidableEq

/-- Modelled from the spec: accessor returning the mnemonic of an
instruction (the `get_mnemonic` method used by `trace.rs`; its body is not
in the snapshot, but the spec defines an instruction as opcode plus
parameter list). -/
def Instruction.get_mnemonic (i : Instruction) : OPCode :=
  i.mnemonic

/-- Modelled from the spec: accessor returning the n-th parameter of an
instruction when present (the `nth` method used by `trace.rs`). -/
def Instruction.nth (i : Instruction) (n : Nat) : Option Value :=
  i.params.bind fun ps => ps.get? n

/-- Program counter (`runtime.rs` `ProgramCounter`): a
(`method_index`, `instruction_index`) pair of `usize` with structural
equality. -/
structure ProgramCounter where
  method_index : Nat
  instruction_index : Nat
deriving DecidableEq

/-- Modelled from the spec: `ProgramCounter` mutation by signed-offset
delta (the `inc_instruction_index` method used by `trace.rs`). A negative
result is clamped at zero; no claim proved here depends on the clamping
choice, the only use of this function is on the backward-goto path. -/
def ProgramCounter.inc_instruction_index (pc : ProgramCounter) (offset : Int) : ProgramCounter :=
  { pc with instruction_index := ((pc.instruction_index : Int) + offset).toNat }

/-- A trace entry (`trace.rs` `Record`): the program counter and the
instruction executed there. -/
structure Record where
  pc : ProgramCounter
  inst : Instruction
deriving DecidableEq

/-- The trace recorder state (`trace.rs` `Recorder`). The two `HashSet`s
of branch-target PCs are modelled as `Finset`s. -/
structure Recorder where
  trace_start : ProgramCounter
  loop_header : ProgramCounter
  is_recording : Bool
  last_instruction_was_branch : Bool
  trace : List Record
  inner_branch_targets : Finset ProgramCounter
  outer_branch_targets : Finset ProgramCounter
deriving DecidableEq

/-- Embedding of `Recorder::new` in `trace.rs`. -/
def Recorder.new : Recorder :=
  { trace_start := ⟨0, 0⟩
    loop_header := ⟨0, 0⟩
    is_recording := false
    last_instruction_was_branch := false
    trace := []
    inner_branch_targets := ∅
    outer_branch_targets := ∅ }

/-- Embedding of `Recorder::is_done_recording` in `trace.rs`. The Rust method mutates
`self` (it can clear `is_recording`), so the embedding returns the result
together with the updated recorder. -/
def Recorder.is_done_recording (r : Recorder) (pc : ProgramCounter) :
    Bool × Recorder :=
  if r.trace.isEmpty then (false, r)
  else
    match r.trace.getLast? with
    | some entry =>
      match entry.inst.get_mnemonic with
      | .Return | .IReturn | .LReturn | .FReturn | .DReturn =>
        if pc.method_index = entry.pc.method_index then
          (false, { r with is_recording := false })
        else
          (pc == r.loop_header, r)
      | _ => (pc == r.loop_header, r)
    | none => (false, r)

/-- Embedding of `Recorder::get_params` in `trace.rs`: the explicit parameter attached
to a short-form constant-push or load/store opcode. -/
def Recorder.get_params : OPCode → Option Value
  | .ILoad0 | .FLoad0 | .LLoad0 | .DLoad0
  | .IStore0 | .FStore0 | .LStore0 | .DStore0
  | .Iconst0 => some (.Int 0)
  | .ILoad1 | .FLoad1 | .LLoad1 | .DLoad1
  | .IStore1 | .FStore1 | .LStore1 | .DStore1
  | .Iconst1 => some (.Int 1)
  | .ILoad2 | .FLoad2 | .LLoad2 | .DLoad2
  | .IStore2 | .FStore2 | .LStore2 | .DStore2
  | .Iconst2 => some (.Int 2)
  | .ILoad3 | .FLoad3 | .LLoad3 | .DLoad3
  | .IStore3 | .FStore3 | .LStore3 | .DStore3
  | .Iconst3 => some (.Int 3)
  | .Iconst4 => some (.Int 4)
  | .Iconst5 => some (.Int 5)
  | .IconstM1 => some (.Int (-1))
  | .Fconst0 => some (.Float 0)
  | .Fconst1 => some (.Float 1)
  | .Fconst2 => some (.Float 2)
  | .Lconst0 => some (.Long 0)
  | .Lconst1 => some (.Long 1)
  | .Dconst0 => some (.Double 0)
  | .Dconst1 => some (.Double 1)
  | _ => none

/-- The Rust cast `v as usize` applied to an `i32`, on a 64-bit target:
sign extension to 64 bits followed by reinterpretation as unsigned. -/
def i32AsUsize (v : Int) : Nat :=
  (v % (2 : Int) ^ 64).toNat

/-- Embedding of `Recorder::record` in `trace.rs`. The two `panic!` paths (a `goto` or
`invokestatic` without an integer first parameter) are modelled as
`none`. The `if self.last_instruction_was_branch` block at the top of the
source has an empty body (the `flip_branch` call is commented out), so it
does not appear here. -/
def Recorder.record (r : Recorder) (pc : ProgramCounter) (inst : Instruction) :
    Option Recorder :=
  match inst.get_mnemonic with
  | .Goto =>
    match inst.nth 0 with
    | some (.Int offset) =>
      if offset > 0 then
        some r
      else
        let branch_target := pc.inc_instruction_index offset
        let r :=
          if r.trace_start = branch_target then
            { r with inner_branch_targets := insert branch_target r.inner_branch_targets }
          else
            { r with outer_branch_targets := insert branch_target r.outer_branch_targets }
        some { r with trace := r.trace ++ [⟨pc, inst⟩] }
    | _ => none
  | .IfNe | .IfEq | .IfGt | .IfICmpGe | .IfICmpGt
  | .IfICmpLt | .IfICmpLe | .IfICmpNe | .IfICmpEq =>
    let r := { r with last_instruction_was_branch := true }
    some { r with trace := r.trace ++ [⟨pc, inst⟩] }
  | .InvokeStatic =>
    match inst.nth 0 with
    | some (.Int method_index) =>
      if r.trace_start.method_index = i32AsUsize method_index then
        some { r with is_recording := false }
      else
        some { r with trace := r.trace ++ [⟨pc, inst⟩] }
    | _ => none
  | .Iconst0 | .Iconst1 | .Iconst2 | .Iconst3 | .Iconst4 | .Iconst5
  | .IconstM1 | .Lconst0 | .Lconst1 | .Fconst0 | .Fconst1 | .Fconst2
  | .Dconst0 | .Dconst1
  | .ILoad0 | .ILoad1 | .ILoad2 | .ILoad3
  | .DLoad0 | .DLoad1 | .DLoad2 | .DLoad3
  | .FLoad0 | .FLoad1 | .FLoad2 | .FLoad3
  | .LLoad0 | .LLoad1 | .LLoad2 | .LLoad3
  | .IStore0 | .IStore1 | .IStore2 | .IStore3
  | .FStore0 | .FStore1 | .FStore2 | .FStore3
  | .DStore0 | .DStore1 | .DStore2 | .DStore3 =>
    let inst :=
      match Recorder.get_params inst.get_mnemonic with
      | some value => { mnemonic := inst.get_mnemonic, params := some [value] }
      | none => inst
    some { r with trace := r.trace ++ [⟨pc, inst⟩] }
  | _ => some { r with trace := r.trace ++ [⟨pc, inst⟩] }

/-- The set of opcodes handled by the short-form arm of
`Recorder::record` (note: the source arm does not include
`lstore_0..lstore_3`). -/
def isShortFormArm : OPCode → Bool
  | .Iconst0 | .Iconst1 | .Iconst2 | .Iconst3 | .Iconst4 | .Iconst5
  | .IconstM1 | .Lconst0 | .Lconst1 | .Fconst0 | .Fconst1 | .Fconst2
  | .Dconst0 | .Dconst1
  | .ILoad0 | .ILoad1 | .ILoad2 | .ILoad3
  | .DLoad0 | .DLoad1 | .DLoad2 | .DLoad3
  | .FLoad0 | .FLoad1 | .FLoad2 | .FLoad3
  | .LLoad0 | .LLoad1 | .LLoad2 | .LLoad3
  | .IStore0 | .IStore1 | .IStore2 | .IStore3
  | .FStore0 | .FStore1 | .FStore2 | .FStore3
  | .DStore0 | .DStore1 | .DStore2 | .DStore3 => true
  | _ => false

/-- The five return opcodes recognised by `is_done_recording`. -/
def isReturnOp (op : OPCode) : Bool :=
  op == .Return || op == .IReturn || op == .LReturn
    || op == .FReturn || op == .DReturn

/-- The claim-side reading of `is_done_recording` (C2), written from the
spec sentence: true iff the trace is non-empty and either the last record
is a return opcode with the same method index as the incoming pc, or the
incoming pc equals the loop header. Used only to exhibit that the claim
diverges from the source. -/
def claimIsDoneRecordingC2 (r : Recorder) (pc : ProgramCounter) : Bool :=
  !r.trace.isEmpty &&
    match r.trace.getLast? with
    | some e =>
      (isReturnOp e.inst.get_mnemonic && pc.method_index == e.pc.method_index)
        || pc == r.loop_header
    | none => false

/-! ### Class-file decoder (`jvm.rs`) -/

/-- Constant pool entries (`jvm.rs` `CPInfo`). `u16`/`u32` fields are
`Nat`; a UTF-8 constant stores the raw byte list it was decoded from
(the Rust `String` content). -/
inductive CPInfo where
  | ConstantClass (name_index : Nat)
  | ConstantFieldRef (class_index name_and_type_index : Nat)
  | ConstantMethodRef (class_index name_and_type_index : Nat)
  | ConstantInterfaceMethodRef (class_index name_and_type_index : Nat)
  | ConstantString (string_index : Nat)
  | ConstantInteger (bytes : Nat)
  | ConstantFloat (bytes : Nat)
  | ConstantLong (hi_bytes lo_bytes : Nat)
  | ConstantDouble (hi_bytes lo_bytes : Nat)
  | ConstantNameAndType (name_index descriptor_index : Nat)
  | ConstantUtf8 (bytes : List Nat)
  | ConstantMethodHandle (reference_kind reference_index : Nat)
  | ConstantMethodType (descriptor_index : Nat)
  | ConstantInvokeDynamic (bootstrap_method_attr_index name_and_type_index : Nat)
  | Unspecified
deriving DecidableEq

/-- Constant kinds (`jvm.rs` `ConstantKind`). -/
inductive ConstantKind where
  | Class
  | FieldRef
  | MethodRef
  | InterfaceMethodRef
  | String
  | Integer
  | Float
  | Long
  | Double
  | NameAndType
  | Utf8
  | MethodHandle
  | MethodType
  | Dynamic
  | InvokeDynamic
  | Module
  | Package
  | Unspecified
deriving DecidableEq

/-- Embedding of `impl From<u8> for ConstantKind` in `jvm.rs`, arm for arm. Note two
quirks of the source, embedded as-is: tag 11 (interface-methodref in the
class-file format) has no arm and falls to `Unspecified`, while tag 12 is
mapped to `InterfaceMethodRef` (not `NameAndType`). -/
def ConstantKind.fromByte (v : Nat) : ConstantKind :=
  if v = 1 then .Utf8 else
  if v = 3 then .Integer else
  if v = 4 then .Float else
  if v = 5 then .Long else
  if v = 6 then .Double else
  if v = 7 then .Class else
  if v = 8 then .String else
  if v = 9 then .FieldRef else
  if v = 10 then .MethodRef else
  if v = 12 then .InterfaceMethodRef else
  if v = 15 then .MethodHandle else
  if v = 16 then .MethodType else
  if v = 17 then .Dynamic else
  if v = 18 then .InvokeDynamic else
  .Unspecified

/-- Read one byte from the stream (`Cursor::read_u8`); `none` models the
I/O error / `unwrap` panic on a truncated buffer. -/
def readU8 : List Nat → Option (Nat × List Nat)
  | [] => none
  | b :: rest => some (b, rest)

/-- Read a big-endian `u16` (`read_u16::<BigEndian>`). -/
def readU16 (bs : List Nat) : Option (Nat × List Nat) := do
  let (b1, bs) ← readU8 bs
  let (b2, bs) ← readU8 bs
  some (b1 * 256 + b2, bs)

/-- Read a big-endian `u32` (`read_u32::<BigEndian>`). -/
def readU32 (bs : List Nat) : Option (Nat × List Nat) := do
  let (b1, bs) ← readU8 bs
  let (b2, bs) ← readU8 bs
  let (b3, bs) ← readU8 bs
  let (b4, bs) ← readU8 bs
  some (((b1 * 256 + b2) * 256 + b3) * 256 + b4, bs)

/-- Read exactly `n` bytes (`read_exact`), failing on a short buffer. -/
def readExact (n : Nat) (bs : List Nat) : Option (List Nat × List Nat) :=
  if n ≤ bs.length then some (bs.take n, bs.drop n) else none

/-- One continuation byte of a UTF-8 sequence: `0x80..=0xBF`. -/
def utf8InRange (lo hi b : Nat) : Bool :=
  lo ≤ b && b ≤ hi

/-- Standard UTF-8 validity, as enforced by Rust `String::from_utf8`
(rejecting overlong encodings and surrogates). -/
def isValidUtf8 : List Nat → Bool
  | [] => true
  | b :: rest =>
    if b ≤ 0x7F then isValidUtf8 rest
    else if 0xC2 ≤ b ∧ b ≤ 0xDF then
      match rest with
      | c1 :: rest2 => utf8InRange 0x80 0xBF c1 && isValidUtf8 rest2
      | [] => false
    else if b = 0xE0 then
      match rest with
      | c1 :: c2 :: rest2 =>
        utf8InRange 0xA0 0xBF c1 && utf8InRange 0x80 0xBF c2 && isValidUtf8 rest2
      | _ => false
    else if (0xE1 ≤ b ∧ b ≤ 0xEC) ∨ b = 0xEE ∨ b = 0xEF then
      match rest with
      | c1 :: c2 :: rest2 =>
        utf8InRange 0x80 0xBF c1 && utf8InRange 0x80 0xBF c2 && isValidUtf8 rest2
      | _ => false
    else if b = 0xED then
      match rest with
      | c1 :: c2 :: rest2 =>
        utf8InRange 0x80 0x9F c1 && utf8InRange 0x80 0xBF c2 && isValidUtf8 rest2
      | _ => false
    else if b = 0xF0 then
      match rest with
      | c1 :: c2 :: c3 :: rest2 =>
        utf8InRange 0x90 0xBF c1 && utf8InRange 0x80 0xBF c2
          && utf8InRange 0x80 0xBF c3 && isValidUtf8 rest2
      | _ => false
    else if 0xF1 ≤ b ∧ b ≤ 0xF3 then
      match rest with
      | c1 :: c2 :: c3 :: rest2 =>
        utf8InRange 0x80 0xBF c1 && utf8InRange 0x80 0xBF c2
          && utf8InRange 0x80 0xBF c3 && isValidUtf8 rest2
      | _ => false
    else if b = 0xF4 then
      match rest with
      | c1 :: c2 :: c3 :: rest2 =>
        utf8InRange 0x80 0x8F c1 && utf8InRange 0x80 0xBF c2
          && utf8InRange 0x80 0xBF c3 && isValidUtf8 rest2
      | _ => false
    else false

/-- One iteration of the constant-pool loop in `JVMParser::parse`: read a
tag byte, dispatch on `ConstantKind`, store the parsed entry at index
`ii`. The `_ => panic!("Unexpected constant kind")` arm is `none`.
Note on the `Long`/`Double` arms: the source writes `ii += 1` there, but
`ii` is a Rust `for`-loop variable that is re-bound at every iteration,
so the increment has no effect on the following iteration; nothing else
reads `ii` afterwards, and the embedding therefore treats these arms like
every other arm (this is the subject of claim C1). -/
def parseCPEntry (pool : List CPInfo) (ii : Nat) (bs : List Nat) :
    Option (List CPInfo × List Nat) := do
  let (tag, bs) ← readU8 bs
  match ConstantKind.fromByte tag with
  | .Class => do
    let (name_index, bs) ← readU16 bs
    some (pool.set ii (.ConstantClass name_index), bs)
  | .FieldRef => do
    let (class_index, bs) ← readU16 bs
    let (name_and_type_index, bs) ← readU16 bs
    some (pool.set ii (.ConstantFieldRef class_index name_and_type_index), bs)
  | .MethodRef => do
    let (class_index, bs) ← readU16 bs
    let (name_and_type_index, bs) ← readU16 bs
    some (pool.set ii (.ConstantMethodRef class_index name_and_type_index), bs)
  | .InterfaceMethodRef => do
    let (class_index, bs) ← readU16 bs
    let (name_and_type_index, bs) ← readU16 bs
    some (pool.set ii (.ConstantInterfaceMethodRef class_index name_and_type_index), bs)
  | .String => do
    let (string_index, bs) ← readU16 bs
    some (pool.set ii (.ConstantString string_index), bs)
  | .Integer => do
    let (bytes, bs) ← readU32 bs
    some (pool.set ii (.ConstantInteger bytes), bs)
  | .Float => do
    let (bytes, bs) ← readU32 bs
    some (pool.set ii (.ConstantFloat bytes), bs)
  | .Long => do
    let (hi_bytes, bs) ← readU32 bs
    let (lo_bytes, bs) ← readU32 bs
    some (pool.set ii (.ConstantLong hi_bytes lo_bytes), bs)
  | .Double => do
    let (hi_bytes, bs) ← readU32 bs
    let (lo_bytes, bs) ← readU32 bs
    some (pool.set ii (.ConstantDouble hi_bytes lo_bytes), bs)
  | .NameAndType => do
    let (name_index, bs) ← readU16 bs
    let (descriptor_index, bs) ← readU16 bs
    some (pool.set ii (.ConstantNameAndType name_index descriptor_index), bs)
  | .Utf8 => do
    let (length, bs) ← readU16 bs
    let (buf, bs) ← readExact length bs
    if isValidUtf8 buf then
      some (pool.set ii (.ConstantUtf8 buf), bs)
    else
      none
  | .MethodHandle => do
    let (ref_kind, bs) ← readU8 bs
    let (ref_index, bs) ← readU16 bs
    some (pool.set ii (.ConstantMethodHandle ref_kind ref_index), bs)
  | .MethodType => do
    let (desc_index, bs) ← readU16 bs
    some (pool.set ii (.ConstantMethodType desc_index), bs)
  | .InvokeDynamic => do
    let (bootstrap_method_attr_index, bs) ← readU16 bs
    let (name_and_type_index, bs) ← readU16 bs
    some (pool.set ii (.ConstantInvokeDynamic bootstrap_method_attr_index name_and_type_index), bs)
  | _ => none

/-- The constant-pool loop `for mut ii in 1..constant_pool_count`: `ii`
takes the values `1, 2, ..., count-1` in order (see the note on
`parseCPEntry` about the dead `ii += 1`). The number of remaining
iterations (`count - ii`) is passed as a structurally decreasing last
argument so that the definition computes by reduction. -/
def parseCPLoop (pool : List CPInfo) (ii : Nat) (bs : List Nat) :
    Nat → Option (List CPInfo × List Nat)
  | 0 => some (pool, bs)
  | fuel + 1 => do
    let (pool, bs) ← parseCPEntry pool ii bs
    parseCPLoop pool (ii + 1) bs fuel

/-- A class-file field (`jvm.rs` `FieldInfo`). The `attributes` map is
always empty in the parsed output (the `parse_attribute_info` call in
`parse_fields` is commented out in the source), so it is omitted. -/
structure FieldInfo where
  access_flag : Nat
  name_index : Nat
  descriptor_index : Nat
deriving DecidableEq

/-- The body of `parse_fields`: read `fields_count` fields of three
`u16`s each. -/
def parseFieldsLoop (n : Nat) (acc : List FieldInfo) (bs : List Nat) :
    Option (List FieldInfo × List Nat) :=
  match n with
  | 0 => some (acc, bs)
  | n + 1 => do
    let (access_flag, bs) ← readU16 bs
    let (name_index, bs) ← readU16 bs
    let (descriptor_index, bs) ← readU16 bs
    parseFieldsLoop n (acc ++ [⟨access_flag, name_index, descriptor_index⟩]) bs

/-- Embedding of `parse_fields` in `jvm.rs`: read a `u16` count, then that many
fields. -/
def parse_fields (bs : List Nat) : Option ((Nat × List FieldInfo) × List Nat) := do
  let (fields_count, bs) ← readU16 bs
  let (fields, bs) ← parseFieldsLoop fields_count [] bs
  some ((fields_count, fields), bs)

/-- Read `n` big-endian `u16` values (the interfaces loop). -/
def readNU16 (n : Nat) (acc : List Nat) (bs : List Nat) :
    Option (List Nat × List Nat) :=
  match n with
  | 0 => some (acc, bs)
  | n + 1 => do
    let (v, bs) ← readU16 bs
    readNU16 n (acc ++ [v]) bs

/-- The parsed class file (`jvm.rs` `JVMClassFile`). The `methods` and
`attributes` vectors are always set to `Vec::new()` by `parse` (their
parsing is commented out in the source), so only their counts — which
`parse` hard-codes to 0 — are kept. -/
structure JVMClassFile where
  magic : Nat
  minor_version : Nat
  major_version : Nat
  constant_pool_count : Nat
  constant_pool : List CPInfo
  access_flags : Nat
  this_class : Nat
  super_class : Nat
  interfaces_count : Nat
  interfaces : List Nat
  fields_count : Nat
  fields : List FieldInfo
  methods_count : Nat
  attributes_count : Nat
deriving DecidableEq

/-- Embedding of `JVMParser::parse` in `jvm.rs`, reading the byte buffer front to
back. Note that the source reads the four magic bytes but never compares
them against `0xCAFEBABE` (the subject of claim C4). `none` covers both
the propagated `io::Error`s and the `unwrap` panics of the source. -/
def JVMParser.parse (class_file_bytes : List Nat) : Option JVMClassFile := do
  let (magic, bs) ← readU32 class_file_bytes
  let (minor_version, bs) ← readU16 bs
  let (major_version, bs) ← readU16 bs
  let (constant_pool_count, bs) ← readU16 bs
  let pool := List.replicate constant_pool_count CPInfo.Unspecified
  let (constant_pool, bs) ← parseCPLoop pool 1 bs (constant_pool_count - 1)
  let (access_flags, bs) ← readU16 bs
  let (this_class, bs) ← readU16 bs
  let (super_class, bs) ← readU16 bs
  let (interfaces_count, bs) ← readU16 bs
  let (interfaces, bs) ← readNU16 interfaces_count [] bs
  let ((fields_count, fields), _) ← parse_fields bs
  some
    { magic := magic
      minor_version := minor_version
      major_version := major_version
      constant_pool_count := constant_pool_count
      constant_pool := constant_pool
      access_flags := access_flags
      this_class := this_class
      super_class := super_class
      interfaces_count := interfaces_count
      interfaces := interfaces
      fields_count := fields_count
      fields := fields
      methods_count := 0
      attributes_count := 0 }

/-! ### Program model (`program.rs`) -/

/-- A program method (`program.rs` `Method`), restricted to the fields
the claims read (`_return_type`, `arg_types`, `_max_stack`, `_constant`
and `_stack_map_table` are never consulted by `entry_point`, `code`,
`max_locals` or `fetch` and are omitted). -/
structure Method where
  name_index : Nat
  max_locals : Nat
  code : List Nat
deriving DecidableEq

/-- Embedding of `Method::default()` for the fields kept here. -/
def Method.defaultMethod : Method :=
  { name_index := 0, max_locals := 0, code := [] }

/-- A loaded program (`program.rs` `Program`): the constant pool and the
dense method table (`Program::new` allocates `vec![Method::default(); 256]`
and installs each parsed method at index `name_index`). -/
structure Program where
  constant_pool : List CPInfo
  methods : List Method
deriving DecidableEq

/-- The UTF-8 bytes of the string `"main"`, which `entry_point` compares
each `ConstantUtf8` entry against. -/
def mainBytes : List Nat := [109, 97, 105, 110]

/-- Embedding of `Program::find_method` in `program.rs`: follow
`MethodRef → NameAndType.name_index`; a non-`NameAndType` target yields 0;
a non-`MethodRef` source or an out-of-range index panics (`none`). -/
def Program.find_method (p : Program) (method_ref : Nat) : Option Int :=
  match p.constant_pool.get? method_ref with
  | some (.ConstantMethodRef _ name_and_type_index) =>
    match p.constant_pool.get? name_and_type_index with
    | some (.ConstantNameAndType name_index _) => some (name_index : Int)
    | some _ => some 0
    | none => none
  | some _ => none
  | none => none

/-- The scan loop of `Program::entry_point`: iterate `index` upward
while `index < n` where `n` is the length of the method table;
`constant_pool.get(index) == None` panics (`none`); a `ConstantUtf8`
equal to `"main"` returns the index; falling off the loop returns 0.
The number of remaining iterations (`n - index`) is the structurally
decreasing last argument. -/
def entryPointFrom (pool : List CPInfo) (index : Nat) : Nat → Option Nat
  | 0 => some 0
  | fuel + 1 =>
    match pool.get? index with
    | some (.ConstantUtf8 bytes) =>
      if bytes = mainBytes then some index else entryPointFrom pool (index + 1) fuel
    | some _ => entryPointFrom pool (index + 1) fuel
    | none => none

/-- Embedding of `Program::entry_point` in `program.rs`: scan indices
`0 .. methods.len()` of the constant pool for the `"main"` UTF-8 entry.
The `None => panic!` branch of the source is `none`. -/
def Program.entry_point (p : Program) : Option Nat :=
  entryPointFrom p.constant_pool 0 p.methods.length

/-- Embedding of `Program::code`: the code array of the method at `method_index`;
out-of-range indexing panics (`none`). -/
def Program.code (p : Program) (method_index : Nat) : Option (List Nat) :=
  (p.methods.get? method_index).map fun m => m.code

/-! ### Interpreter (`runtime.rs`) -/

/-- A per-call execution frame (`runtime.rs` `State`): program counter,
operand stack and locals. The top of the Rust `Vec` stack (its last
element) is the head of the list here; the locals `HashMap` is an
association list, never consulted by the arms embedded below. -/
structure State where
  pc : ProgramCounter
  stack : List Value
  locals : List (Nat × Value)
deriving DecidableEq

/-- Outcome of one `eval` step: the updated frame stack, or a panic
(`todo!()` or `params[0]` on a missing parameter list in the source). -/
inductive EvalResult where
  | ok (states : List State)
  | fatal
deriving DecidableEq

/-- Embedding of `Runtime::push`: push a value on the stack of the innermost frame
(`states.last_mut()`); with no frame, do nothing. The innermost frame is
the list head. -/
def pushValue (v : Value) : List State → List State
  | [] => []
  | st :: rest => { st with stack := v :: st.stack } :: rest

/-- Embedding of `Runtime::eval` in `runtime.rs`, arm for arm over the frame stack
(innermost frame at the head). The source wraps the whole dispatch in
`if let Some(state) = self.states.last_mut()`, so an empty frame stack
does nothing. `todo!()` arms are `.fatal`; note that the source lists
`istore_1..3` families but not `istore_0`/`lstore_0`/`fstore_0`/`dstore_0`,
which therefore fall to the silent catch-all `_ => ()` — as do
`Unspecified` and every other unhandled opcode (the subject of C5).
The source writes `OPCode::NOP` for the no-op arm; the enum variant is
`Nop`. -/
def Runtime.eval (inst : Instruction) (states : List State) : EvalResult :=
  match states with
  | [] => .ok []
  | st :: rest =>
    match inst.mnemonic with
    | .IconstM1 => .ok (pushValue (.Int (-1)) (st :: rest))
    | .Iconst0 => .ok (pushValue (.Int 0) (st :: rest))
    | .Iconst1 => .ok (pushValue (.Int 1) (st :: rest))
    | .Iconst2 => .ok (pushValue (.Int 2) (st :: rest))
    | .Iconst3 => .ok (pushValue (.Int 3) (st :: rest))
    | .Iconst4 => .ok (pushValue (.Int 4) (st :: rest))
    | .Iconst5 => .ok (pushValue (.Int 5) (st :: rest))
    | .Lconst0 => .ok (pushValue (.Long 0) (st :: rest))
    | .Lconst1 => .ok (pushValue (.Long 1) (st :: rest))
    | .Fconst0 => .ok (pushValue (.Float 0) (st :: rest))
    | .Fconst1 => .ok (pushValue (.Float 1) (st :: rest))
    | .Fconst2 => .ok (pushValue (.Float 2) (st :: rest))
    | .Dconst0 => .ok (pushValue (.Double 0) (st :: rest))
    | .Dconst1 => .ok (pushValue (.Double 1) (st :: rest))
    | .BiPush | .SiPush | .Ldc | .Ldc2W =>
      match inst.params with
      | some (v :: _) => .ok (pushValue v (st :: rest))
      | some [] => .fatal
      | none => .fatal
    | .ILoad | .LLoad | .FLoad | .DLoad => .fatal
    | .ILoad0 | .LLoad0 | .FLoad0 | .DLoad0 => .fatal
    | .ILoad1 | .LLoad1 | .FLoad1 | .DLoad1 => .fatal
    | .ILoad2 | .LLoad2 | .FLoad2 | .DLoad2 => .fatal
    | .ILoad3 | .LLoad3 | .FLoad3 | .DLoad3 => .fatal
    | .IStore | .LStore | .FStore | .DStore => .fatal
    | .IStore1 | .LStore1 | .FStore1 | .DStore1 => .fatal
    | .IStore2 | .LStore2 | .FStore2 | .DStore2 => .fatal
    | .IStore3 | .LStore3 | .FStore3 | .DStore3 => .fatal
    | .LCmp | .FCmpL | .FCmpG | .DCmpL | .DCmpG => .fatal
    | .IReturn | .LReturn | .FReturn | .DReturn => .fatal
    | .Return => .ok rest
    | .Nop => .ok (st :: rest)
    | _ => .ok (st :: rest)

/-- Embedding of `Runtime::encode_arg`: `(lo as i32) << 8 | hi as i32` on two bytes.
The argument names are the source's own — the first-read (big-endian
high) byte is passed as `lo`. Both inputs are below 256, so no overflow
or sign bit is reachable and the result is the non-negative big-endian
value. -/
def Runtime.encode_arg (lo hi : Nat) : Int :=
  ((lo <<< 8) ||| hi : Nat)

/-- Embedding of `Runtime::next`: read the byte at the current program counter in the
current method's code and advance the instruction index. Out-of-range
method or code indexing panics (`none`). -/
def Runtime.next (program : Program) (st : State) : Option (Nat × State) :=
  match program.code st.pc.method_index with
  | some code =>
    match code.get? st.pc.instruction_index with
    | some bc =>
      some (bc, { st with
        pc := { st.pc with instruction_index := st.pc.instruction_index + 1 } })
    | none => none
  | none => none

/-- Embedding of `Runtime::fetch` in `runtime.rs`: pop the innermost frame (an empty
frame stack panics), read and decode one opcode plus its operand bytes
per the source's match, push the frame back and return the decoded
instruction. -/
def Runtime.fetch (program : Program) (states : List State) :
    Option (Instruction × List State) :=
  match states with
  | [] => none
  | st :: rest => do
    let (b, st) ← Runtime.next program st
    let mnemonic := OPCode.fromByte b
    match mnemonic with
    | .SiPush | .IfEq | .IfNe | .IfLt | .IfLe | .IfGt | .IfGe
    | .IfICmpEq | .IfICmpNe | .IfICmpLt | .IfICmpLe | .IfICmpGt | .IfICmpGe
    | .Goto => do
      let (lo, st) ← Runtime.next program st
      let (hi, st) ← Runtime.next program st
      some (⟨mnemonic, some [.Int (Runtime.encode_arg lo hi)]⟩, st :: rest)
    | .InvokeSpecial | .GetStatic | .InvokeVirtual | .IInc => do
      let (first, st) ← Runtime.next program st
      let (second, st) ← Runtime.next program st
      some (⟨mnemonic, some [.Int (first : Int), .Int (second : Int)]⟩, st :: rest)
    | .BiPush | .ILoad | .FLoad | .LLoad | .DLoad
    | .IStore | .FStore | .LStore | .DStore => do
      let (arg, st) ← Runtime.next program st
      some (⟨mnemonic, some [.Int (arg : Int)]⟩, st :: rest)
    | .InvokeStatic => do
      let (lo, st) ← Runtime.next program st
      let (hi, st) ← Runtime.next program st
      let method_ref_index := (Runtime.encode_arg lo hi).toNat
      let method_name_index ← program.find_method method_ref_index
      some (⟨mnemonic, some [.Int method_name_index]⟩, st :: rest)
    | _ => some (⟨mnemonic, none⟩, st :: rest)

/-- Auxiliary decidable check for the opcode round trip at one byte. -/
def roundTripOk (b : Nat) : Bool :=
  OPCode.toByte (OPCode.fromByte b) == b && OPCode.fromByte b != OPCode.Unspecified

set_option maxHeartbeats 1600000 in
/-- The round-trip check holds on every byte in the defined range. -/
theorem roundTripOk_range : (List.range 203).all roundTripOk = true := by decide

set_option maxHeartbeats 1600000 in
/-- Every byte above the defined range decodes to `Unspecified`. -/
theorem fromByte_above_range :
    (List.range' 203 53).all (fun b => OPCode.fromByte b == OPCode.Unspecified) = true := by
  decide

set_option maxHeartbeats 1600000 in
/-- C9: the byte-to-opcode mapping is a bijection between the byte range
0..=202 and the non-`Unspecified` opcode tags: `toByte` inverts `fromByte`
on 0..=202 (and `fromByte b` is never `Unspecified` there), `fromByte`
inverts `toByte` on every non-`Unspecified` tag, and every byte above 202
(up to 255) maps to `Unspecified`. -/
theorem opcode_byte_round_trip :
    (∀ b : Nat, b ≤ 202 →
      OPCode.toByte (OPCode.fromByte b) = b ∧ OPCode.fromByte b ≠ .Unspecified)
    ∧ (∀ op : OPCode, op ≠ .Unspecified → OPCode.fromByte (OPCode.toByte op) = op)
    ∧ (∀ b : Nat, b ≤ 255 → 202 < b → OPCode.fromByte b = .Unspecified) := by
  refine ⟨?_, ?_, ?_⟩
  · intro b hb
    have h := List.all_eq_true.mp roundTripOk_range b (List.mem_range.mpr (by omega))
    rw [roundTripOk, Bool.and_eq_true, beq_iff_eq, bne_iff_ne] at h
    exact h
  · intro op h
    cases op <;> first | rfl | exact absurd rfl h
  · intro b hb1 hb2
    have h := List.all_eq_true.mp fromByte_above_range b (by
      rw [List.mem_range'_1]
      omega)
    exact beq_iff_eq.mp h

/-- C9 witness: the round-trip theorem applied at the concrete byte 167
(`goto`) and at byte 240 (above the defined range). -/
theorem opcode_byte_round_trip_witness :
    OPCode.toByte (OPCode.fromByte 167) = 167 ∧ OPCode.fromByte 240 = .Unspecified :=
  ⟨(opcode_byte_round_trip.1 167 (by decide)).1,
    opcode_byte_round_trip.2.2 240 (by decide) (by decide)⟩

/-! ### Trace recorder theorems -/

/-- The match on the last record's mnemonic inside `is_done_recording`,
re-expressed through the `isReturnOp` predicate. -/
theorem is_done_recording_eq (r : Recorder) (pc : ProgramCounter) :
    r.is_done_recording pc =
      if r.trace.isEmpty then (false, r)
      else
        match r.trace.getLast? with
        | some entry =>
          if isReturnOp entry.inst.get_mnemonic then
            if pc.method_index = entry.pc.method_index then
              (false, { r with is_recording := false })
            else (pc == r.loop_header, r)
          else (pc == r.loop_header, r)
        | none => (false, r) := by
  cases hE : r.trace.isEmpty
  · cases hL : r.trace.getLast? with
    | none => simp [Recorder.is_done_recording, hE, hL]
    | some e =>
      cases hm : e.inst.get_mnemonic <;>
        simp [Recorder.is_done_recording, hE, hL, hm, isReturnOp]
  · simp [Recorder.is_done_recording, hE]

/-- C2 counterexample: a recorder whose last record is a `return` at
method index 0, queried at a pc with the same method index 0. The claim
says the call returns true; the source returns false (and clears
`is_recording`). -/
theorem is_done_recording_claim_counterexample :
    (Recorder.is_done_recording
      { trace_start := ⟨0, 0⟩
        loop_header := ⟨1, 1⟩
        is_recording := true
        last_instruction_was_branch := false
        trace := [⟨⟨0, 5⟩, ⟨.Return, none⟩⟩]
        inner_branch_targets := ∅
        outer_branch_targets := ∅ }
      ⟨0, 6⟩).1 = false
    ∧ claimIsDoneRecordingC2
      { trace_start := ⟨0, 0⟩
        loop_header := ⟨1, 1⟩
        is_recording := true
        last_instruction_was_branch := false
        trace := [⟨⟨0, 5⟩, ⟨.Return, none⟩⟩]
        inner_branch_targets := ∅
        outer_branch_targets := ∅ }
      ⟨0, 6⟩ = true := by
  constructor <;> rfl

/-- C2 (amended): `is_done_recording(pc)` returns false on an empty
trace; when the last record is a return opcode and `pc.method_index`
equals the last record's method index it clears `is_recording` and
returns false; in every other non-empty case it leaves the recorder
unchanged and returns `pc == loop_header`. -/
theorem is_done_recording_amended (r : Recorder) (pc : ProgramCounter) :
    (r.trace = [] → r.is_done_recording pc = (false, r))
    ∧ ∀ e, r.trace.getLast? = some e →
        ((isReturnOp e.inst.get_mnemonic = true → pc.method_index = e.pc.method_index →
            r.is_done_recording pc = (false, { r with is_recording := false }))
        ∧ ((isReturnOp e.inst.get_mnemonic = false ∨ pc.method_index ≠ e.pc.method_index) →
            r.is_done_recording pc = (pc == r.loop_header, r))) := by
  refine ⟨fun h => by simp [Recorder.is_done_recording, h], fun e he => ?_⟩
  have hne : r.trace.isEmpty = false := by
    cases h : r.trace with
    | nil => rw [h] at he; simp at he
    | cons a l => simp [h]
  rw [is_done_recording_eq, hne]
  constructor
  · intro hret heq
    simp [he, hret, heq]
  · rintro (hf | hneq)
    · simp [he, hf]
    · rcases hr : isReturnOp e.inst.get_mnemonic with _ | _
      · simp [he, hr]
      · simp [he, hr, hneq]

/-- C2 witness: the amended characterization applied to a concrete
recorder whose last record is `ireturn` in method 0, queried at the loop
header, which lies in method 1: the result is true and the recorder is
untouched. -/
theorem is_done_recording_amended_witness :
    Recorder.is_done_recording
      { trace_start := ⟨0, 0⟩
        loop_header := ⟨1, 1⟩
        is_recording := true
        last_instruction_was_branch := false
        trace := [⟨⟨0, 5⟩, ⟨.IReturn, none⟩⟩]
        inner_branch_targets := ∅
        outer_branch_targets := ∅ }
      ⟨1, 1⟩ =
    (true,
      { trace_start := ⟨0, 0⟩
        loop_header := ⟨1, 1⟩
        is_recording := true
        last_instruction_was_branch := false
        trace := [⟨⟨0, 5⟩, ⟨.IReturn, none⟩⟩]
        inner_branch_targets := ∅
        outer_branch_targets := ∅ }) := by
  have h := (is_done_recording_amended
      { trace_start := ⟨0, 0⟩
        loop_header := ⟨1, 1⟩
        is_recording := true
        last_instruction_was_branch := false
        trace := [⟨⟨0, 5⟩, ⟨.IReturn, none⟩⟩]
        inner_branch_targets := ∅
        outer_branch_targets := ∅ }
      ⟨1, 1⟩).2 ⟨⟨0, 5⟩, ⟨.IReturn, none⟩⟩ rfl
  exact h.2 (Or.inr (by decide))


/-- C3 counterexample: recording `iconst_0` appends a record that keeps
the mnemonic `iconst_0` with the explicit parameter `Int 0`; the source
does not rewrite the opcode to the long form `ldc` that the claim
demands. -/
theorem record_canonical_claim_counterexample :
    Recorder.record { Recorder.new with is_recording := true } ⟨0, 2⟩ ⟨.Iconst0, none⟩ =
      some { Recorder.new with
        is_recording := true
        trace := [⟨⟨0, 2⟩, ⟨.Iconst0, some [.Int 0]⟩⟩] }
    ∧ OPCode.Iconst0 ≠ OPCode.Ldc := by
  refine ⟨?_, by decide⟩
  simp [Recorder.record, Recorder.new, Instruction.get_mnemonic, Recorder.get_params]

/-- C3 (amended): for every opcode in the short-form arm of
`Recorder::record` (which omits `lstore_0..3`), the appended record keeps
the original short-form mnemonic and carries the single explicit
parameter from `get_params` (`Int N` for `iconst_N`/`*load_N`/`*store_N`,
`Long`/`Float`/`Double` literals for the typed constants); the opcode is
not rewritten to a long form. -/
theorem record_short_form_amended (r : Recorder) (pc : ProgramCounter)
    (inst : Instruction) (h : isShortFormArm inst.get_mnemonic = true) :
    ∃ v, Recorder.get_params inst.get_mnemonic = some v ∧
      r.record pc inst =
        some { r with trace := r.trace ++ [⟨pc, ⟨inst.get_mnemonic, some [v]⟩⟩] } := by
  obtain ⟨mn, p⟩ := inst
  simp only [Instruction.get_mnemonic] at h ⊢
  cases mn <;> simp [isShortFormArm] at h <;> exact ⟨_, rfl, rfl⟩

/-- C3 witness: the amended statement applied to `iload_2` recorded from
a fresh recorder. -/
theorem record_short_form_amended_witness :
    ∃ v, Recorder.get_params (Instruction.get_mnemonic ⟨.ILoad2, none⟩) = some v ∧
      Recorder.record Recorder.new ⟨0, 3⟩ ⟨.ILoad2, none⟩ =
        some { Recorder.new with
          trace := Recorder.new.trace ++
            [⟨⟨0, 3⟩, ⟨Instruction.get_mnemonic ⟨.ILoad2, none⟩, some [v]⟩⟩] } :=
  record_short_form_amended Recorder.new ⟨0, 3⟩ ⟨.ILoad2, none⟩ (by decide)

/-- C7: recording an `invokestatic` whose method-name-index parameter
equals the recording trace's own method index clears `is_recording` and
leaves the trace buffer (and every other field) unchanged. -/
theorem record_recursive_invokestatic (r : Recorder) (pc : ProgramCounter)
    (inst : Instruction) (hrec : r.is_recording = true)
    (hm : inst.get_mnemonic = .InvokeStatic) (v : Int)
    (hv : inst.nth 0 = some (.Int v))
    (heq : i32AsUsize v = r.trace_start.method_index) :
    r.record pc inst = some { r with is_recording := false } := by
  obtain ⟨mn, p⟩ := inst
  simp only [Instruction.get_mnemonic] at hm
  subst hm
  simp [Recorder.record, Instruction.get_mnemonic, hv, heq]

/-- C7 witness: a recorder tracing method 3 receives
`invokestatic` with method-name-index 3: the trace does not grow and
`is_recording` is cleared. -/
theorem record_recursive_invokestatic_witness :
    Recorder.record
      { Recorder.new with trace_start := ⟨3, 0⟩, is_recording := true }
      ⟨3, 7⟩ ⟨.InvokeStatic, some [.Int 3]⟩ =
      some { Recorder.new with trace_start := ⟨3, 0⟩, is_recording := false } :=
  record_recursive_invokestatic
    { Recorder.new with trace_start := ⟨3, 0⟩, is_recording := true }
    ⟨3, 7⟩ ⟨.InvokeStatic, some [.Int 3]⟩ rfl rfl 3 rfl (by decide)

/-- C8 counterexample: recording a forward `goto` (offset 5) appends
nothing, but it also leaves `is_recording` at `true` — the source merely
returns early and does not abort the recording as the claim states. -/
theorem record_forward_goto_claim_counterexample :
    Recorder.record { Recorder.new with is_recording := true } ⟨0, 2⟩
        ⟨.Goto, some [.Int 5]⟩ =
      some { Recorder.new with is_recording := true }
    ∧ ({ Recorder.new with is_recording := true } : Recorder).is_recording = true :=
  ⟨rfl, rfl⟩

/-- C8 (amended): recording a `goto` whose decoded offset parameter is
strictly positive returns the recorder completely unchanged: no record is
appended and `is_recording` keeps its value (it is not set to false). -/
theorem record_forward_goto_amended (r : Recorder) (pc : ProgramCounter)
    (inst : Instruction) (hm : inst.get_mnemonic = .Goto) (v : Int)
    (hv : inst.nth 0 = some (.Int v)) (hpos : 0 < v) :
    r.record pc inst = some r := by
  obtain ⟨mn, p⟩ := inst
  simp only [Instruction.get_mnemonic] at hm
  subst hm
  simp [Recorder.record, Instruction.get_mnemonic, hv, hpos]

/-- C8 witness: a recording recorder receives `goto +5` and is returned
unchanged. -/
theorem record_forward_goto_amended_witness :
    Recorder.record { Recorder.new with is_recording := true } ⟨0, 9⟩
        ⟨.Goto, some [.Int 5]⟩ =
      some { Recorder.new with is_recording := true } :=
  record_forward_goto_amended { Recorder.new with is_recording := true }
    ⟨0, 9⟩ ⟨.Goto, some [.Int 5]⟩ rfl 5 rfl (by decide)



/-! ### Decoder, interpreter and program-model theorems -/

/-- C1: the `ii += 1` after a `Long`/`Double` entry is dead (a Rust
`for`-loop variable is re-bound each iteration), so the parse loop always
advances by one: on a pool of count 4 holding a `Long` at index 1, the
byte that the claim says is the tag of entry 3 is parsed as entry 2, and
index 2 holds that entry instead of the claimed `Unspecified` gap. Pool
length and the `Unspecified` at index 0 do match the claim. -/
theorem parse_long_gap_bug :
    (JVMParser.parse
      [0xCA, 0xFE, 0xBA, 0xBE, 0, 0, 0, 61, 0, 4,
       5, 0, 0, 0, 0, 0, 0, 0, 1,
       3, 0, 0, 0, 7,
       3, 0, 0, 0, 9,
       0, 0, 0, 0, 0, 0, 0, 0, 0, 0]).map
        (fun cf => (cf.constant_pool, cf.constant_pool_count)) =
      some ([.Unspecified, .ConstantLong 0 1, .ConstantInteger 7, .ConstantInteger 9], 4)
    ∧ (CPInfo.ConstantInteger 7) ≠ .Unspecified := by
  exact ⟨rfl, by decide⟩

/-- C4: `JVMParser::parse` never checks the magic bytes: a well-formed
input whose first four bytes are `0xDEADBEEF` parses successfully and the
resulting class file carries that magic, instead of being rejected with a
`BadMagic` error. -/
theorem parse_accepts_bad_magic :
    (JVMParser.parse
      [0xDE, 0xAD, 0xBE, 0xEF, 0, 0, 0, 0x3D, 0, 1,
       0, 0, 0, 0, 0, 0, 0, 0, 0, 0]).map (fun cf => cf.magic) =
      some 0xDEADBEEF
    ∧ (0xDEADBEEF : Nat) ≠ 0xCAFEBABE := by
  exact ⟨rfl, by decide⟩

/-- C5: evaluating an `Unspecified` opcode — or any other opcode outside
the handled subset (`new`, `monitorenter`, `athrow`, `checkcast`,
`instanceof`, `invokedynamic`) — falls into the silent `_ => ()`
catch-all of `Runtime::eval`: the frame stack is returned unchanged and
no error is produced (the `RuntimeErrorKind` enum of the source has no
variants at all, so an `UnsupportedOpcode` error cannot even be
expressed). -/
theorem eval_unspecified_silent_noop :
    Runtime.eval ⟨.Unspecified, none⟩ [⟨⟨0, 0⟩, [.Int 7], []⟩] =
      .ok [⟨⟨0, 0⟩, [.Int 7], []⟩]
    ∧ Runtime.eval ⟨.New, none⟩ [⟨⟨0, 0⟩, [.Int 7], []⟩] =
      .ok [⟨⟨0, 0⟩, [.Int 7], []⟩]
    ∧ Runtime.eval ⟨.MonitorEnter, none⟩ [⟨⟨0, 0⟩, [.Int 7], []⟩] =
      .ok [⟨⟨0, 0⟩, [.Int 7], []⟩]
    ∧ Runtime.eval ⟨.AThrow, none⟩ [⟨⟨0, 0⟩, [.Int 7], []⟩] =
      .ok [⟨⟨0, 0⟩, [.Int 7], []⟩]
    ∧ Runtime.eval ⟨.CheckCast, none⟩ [⟨⟨0, 0⟩, [.Int 7], []⟩] =
      .ok [⟨⟨0, 0⟩, [.Int 7], []⟩]
    ∧ Runtime.eval ⟨.InstanceOf, none⟩ [⟨⟨0, 0⟩, [.Int 7], []⟩] =
      .ok [⟨⟨0, 0⟩, [.Int 7], []⟩]
    ∧ Runtime.eval ⟨.InvokeDynamic, none⟩ [⟨⟨0, 0⟩, [.Int 7], []⟩] =
      .ok [⟨⟨0, 0⟩, [.Int 7], []⟩] :=
  ⟨rfl, rfl, rfl, rfl, rfl, rfl, rfl⟩

/-- C6: `fetch` zero-extends its immediates. A `bipush` with operand
byte `0xC8` (200) decodes to `Int 200` — not the sign-extended `Int (-56)`
the claim states — and a `goto` with offset bytes `0xFF 0xFE` decodes to
`Int 65534`, a positive value rather than the claimed negative signed
16-bit offset `-2`. -/
theorem fetch_unsigned_immediates :
    Runtime.fetch ⟨[], [⟨0, 0, [16, 200]⟩]⟩ [⟨⟨0, 0⟩, [], []⟩] =
      some (⟨.BiPush, some [.Int 200]⟩, [⟨⟨0, 2⟩, [], []⟩])
    ∧ Runtime.fetch ⟨[], [⟨0, 0, [167, 255, 254]⟩]⟩ [⟨⟨0, 0⟩, [], []⟩] =
      some (⟨.Goto, some [.Int 65534]⟩, [⟨⟨0, 3⟩, [], []⟩])
    ∧ (200 : Int) ≠ -56 ∧ (0 : Int) < 65534 := by
  exact ⟨rfl, rfl, by decide, by decide⟩

/-- If `"main"` sits at pool index `i` with `index ≤ i < index + fuel`
and at no index in `[index, i)`, the scan from `index` returns `i`. -/
theorem entryPointFrom_finds_main (pool : List CPInfo) (i : Nat)
    (hmain : pool.get? i = some (.ConstantUtf8 mainBytes)) :
    ∀ fuel index, index ≤ i → i < index + fuel →
      (∀ j, index ≤ j → j < i → pool.get? j ≠ some (.ConstantUtf8 mainBytes)) →
      entryPointFrom pool index fuel = some i := by
  intro fuel
  induction fuel with
  | zero =>
    intro index _ hin _
    omega
  | succ fuel ih =>
    intro index hle hin hnone
    rw [entryPointFrom]
    rcases Nat.eq_or_lt_of_le hle with hie | hlt
    · subst hie
      simp [← List.get?_eq_getElem?, hmain]
    · have hrec := ih (index + 1) (by omega) (by omega)
        (fun j hj1 hj2 => hnone j (by omega) hj2)
      cases hg : pool.get? index with
      | none =>
        exfalso
        have hlen : pool.length ≤ index := List.get?_eq_none.mp hg
        have : pool.get? i = none := List.get?_eq_none.mpr (by omega)
        rw [this] at hmain
        exact Option.noConfusion hmain
      | some c =>
        have hcm : some c ≠ some (CPInfo.ConstantUtf8 mainBytes) := by
          rw [← hg]
          exact hnone index le_rfl hlt
        cases c
        case ConstantUtf8 bytes =>
          simp only
          rw [if_neg (fun h => hcm (by rw [h]))]
          exact hrec
        all_goals simpa only using hrec

/-- If no `"main"` entry occurs at indices `[index, index + fuel)` and
the pool extends past that window, the scan runs off the end and
returns 0. -/
theorem entryPointFrom_no_main_long (pool : List CPInfo) :
    ∀ fuel index, index + fuel ≤ pool.length →
      (∀ j, index ≤ j → j < index + fuel →
        pool.get? j ≠ some (.ConstantUtf8 mainBytes)) →
      entryPointFrom pool index fuel = some 0 := by
  intro fuel
  induction fuel with
  | zero =>
    intro index _ _
    rw [entryPointFrom]
  | succ fuel ih =>
    intro index hnp hnone
    rw [entryPointFrom]
    have hrec := ih (index + 1) (by omega) (fun j hj1 hj2 => hnone j (by omega) (by omega))
    cases hg : pool.get? index with
    | none =>
      exfalso
      have hlen : pool.length ≤ index := List.get?_eq_none.mp hg
      omega
    | some c =>
      have hcm : some c ≠ some (CPInfo.ConstantUtf8 mainBytes) := by
        rw [← hg]
        exact hnone index le_rfl (by omega)
      cases c
      case ConstantUtf8 bytes =>
        simp only
        rw [if_neg (fun h => hcm (by rw [h]))]
        exact hrec
      all_goals simpa only using hrec

/-- If no `"main"` entry occurs in the pool and the scan window reaches
past the pool, the scan hits `constant_pool.get(index) == None` and
panics. -/
theorem entryPointFrom_no_main_short (pool : List CPInfo) :
    ∀ fuel index, pool.length < index + fuel → index ≤ pool.length →
      (∀ j, index ≤ j → j < pool.length →
        pool.get? j ≠ some (.ConstantUtf8 mainBytes)) →
      entryPointFrom pool index fuel = none := by
  intro fuel
  induction fuel with
  | zero =>
    intro index hlen hle _
    omega
  | succ fuel ih =>
    intro index hlen hle hnone
    rw [entryPointFrom]
    rcases Nat.eq_or_lt_of_le hle with hie | hlt
    · have hg : pool.get? index = none := List.get?_eq_none.mpr (by omega)
      simp only [hg]
    · have hrec := ih (index + 1) (by omega) (by omega)
        (fun j hj1 hj2 => hnone j (by omega) hj2)
      cases hg : pool.get? index with
      | none =>
        exfalso
        have := List.get?_eq_none.mp hg
        omega
      | some c =>
        have hcm : some c ≠ some (CPInfo.ConstantUtf8 mainBytes) := by
          rw [← hg]
          exact hnone index le_rfl hlt
        cases c
        case ConstantUtf8 bytes =>
          simp only
          rw [if_neg (fun h => hcm (by rw [h]))]
          exact hrec
        all_goals simpa only using hrec

/-- C10: over the dense 256-entry method table built by `Program::new`,
`entry_point` scans constant-pool indices 0..255 only: it returns the
least index `i < 256` holding `ConstantUtf8 "main"`; with no such entry
it returns 0 when the pool has at least 256 entries, and panics (the
`None` branch) when the pool is shorter than 256 entries. -/
theorem entry_point_dense_table (p : Program) (h256 : p.methods.length = 256) :
    (∀ i, i < 256 → p.constant_pool.get? i = some (.ConstantUtf8 mainBytes) →
      (∀ j, j < i → p.constant_pool.get? j ≠ some (.ConstantUtf8 mainBytes)) →
      p.entry_point = some i)
    ∧ ((∀ i, i < 256 → p.constant_pool.get? i ≠ some (.ConstantUtf8 mainBytes)) →
        256 ≤ p.constant_pool.length → p.entry_point = some 0)
    ∧ ((∀ i, i < 256 → p.constant_pool.get? i ≠ some (.ConstantUtf8 mainBytes)) →
        p.constant_pool.length < 256 → p.entry_point = none) := by
  refine ⟨?_, ?_, ?_⟩
  · intro i hi hmain hleast
    rw [Program.entry_point, h256]
    exact entryPointFrom_finds_main p.constant_pool i hmain 256 0
      (Nat.zero_le i) (by omega) (fun j _ hj2 => hleast j hj2)
  · intro hnone hlong
    rw [Program.entry_point, h256]
    exact entryPointFrom_no_main_long p.constant_pool 256 0 (by omega)
      (fun j _ hj2 => hnone j (by omega))
  · intro hnone hshort
    rw [Program.entry_point, h256]
    exact entryPointFrom_no_main_short p.constant_pool 256 0 (by omega)
      (Nat.zero_le _) (fun j _ hj2 => hnone j (by omega))

/-- C10 witness: a program with `"main"` at pool index 1 and the dense
256-entry method table has entry point 1. -/
theorem entry_point_dense_table_witness :
    Program.entry_point
      ⟨[.Unspecified, .ConstantUtf8 mainBytes],
        List.replicate 256 Method.defaultMethod⟩ = some 1 :=
  (entry_point_dense_table
      ⟨[.Unspecified, .ConstantUtf8 mainBytes],
        List.replicate 256 Method.defaultMethod⟩
      (by simp)).1 1 (by decide) rfl
    (by
      intro j hj
      interval_cases j
      decide)


end Coldbrew
